import Mathlib

/-!
Verification development for the Life2LaunchLabs backend.

Shallow embedding of the pieces of the code base that the checked properties
talk about: the WebSocket staged response delivery, the conversation service
error handling around the parallel LLM/control requests, the message
processing pipeline, the response cache key, the chat session TTL services,
the agenda markdown parser, the control-data parser, the course session
progress update, and the milestone prerequisite check.

Text content is modelled as `List Char`; short enumeration-like labels
(statuses, roles, preset keys) as `String`.
-/

namespace Life2Launch

/-! ## WebSocket staged response (apps/chat/websocket_consumers.py)

`ChatStreamConsumer._send_staged_response` sends an optional emote frame,
a stream_start frame, the assistant content chunked client-side in pieces of
20 characters (each followed by a 0.05 s sleep), a stream_complete frame and
an optional quick_responses frame.  We model the emitted trace, sleeps
included, as a list of events. -/

/-- One event of `_send_staged_response`: a frame sent over the socket or an
`asyncio.sleep`.  Sleep durations are recorded in hundredths of a second. -/
inductive WsEvent where
  | sendEmote (emote : List Char) (glyph : Option (List Char))
  | sendStreamStart
  | sendStreamChunk (chunk : List Char) (chunkIndex : Nat)
  | sendStreamComplete
  | sendQuickResponses (replies : List (List Char))
  | sleepHundredths (n : Nat)
  deriving DecidableEq, Repr

/-- The `control_data` dict carried in the response data
(`emote`, `emote_glyph`, `quick_replies`); `none` fields model absent keys /
Python `None`. -/
structure WsControlData where
  emote : Option (List Char)
  emoteGlyph : Option (List Char)
  quickReplies : List (List Char)
  deriving DecidableEq, Repr

/-- `response_data.get('control_data', {})` followed by `.get('emote')`. -/
def getEmote (cd : Option WsControlData) : Option (List Char) :=
  cd.bind (·.emote)

/-- `response_data.get('control_data', {})` followed by `.get('emote_glyph')`. -/
def getEmoteGlyph (cd : Option WsControlData) : Option (List Char) :=
  cd.bind (·.emoteGlyph)

/-- `control_data.get('quick_replies', [])`. -/
def getQuickReplies (cd : Option WsControlData) : List (List Char) :=
  match cd with
  | none => []
  | some c => c.quickReplies

/-- Python truthiness of an optional string (`None` and `''` are falsy). -/
def optStrTruthy (s : Option (List Char)) : Bool :=
  match s with
  | none => false
  | some cs => cs ≠ []

/-- The chunking loop
`for i in range(0, len(content), chunk_size)` with `chunk_size = 20`:
the loop variable runs over `range(0, len(content), 20)`, i.e. `i = 20 * k`
for `k < ceil(len(content) / 20)`; each iteration sends `content[i:i+20]`
with `chunk_index = i // chunk_size` and then sleeps 0.05 s. -/
def chunkEvents (content : List Char) : List WsEvent :=
  (List.range ((content.length + 19) / 20)).flatMap fun k =>
    [WsEvent.sendStreamChunk ((content.drop (20 * k)).take 20) ((20 * k) / 20),
     WsEvent.sleepHundredths 5]

/-- `ChatStreamConsumer._send_staged_response`, as the trace of events it
emits: Stage 1 the optional emote frame (with a 0.1 s sleep), Stage 2
stream_start, the chunk loop and stream_complete, Stage 3 the optional
quick_responses frame. -/
def sendStagedResponse (controlData : Option WsControlData)
    (assistantContent : List Char)
    (requestEmote requestQuickResponses : Bool) : List WsEvent :=
  (if requestEmote ∧ optStrTruthy (getEmote controlData) then
    [WsEvent.sendEmote ((getEmote controlData).getD []) (getEmoteGlyph controlData),
     WsEvent.sleepHundredths 10]
  else []) ++
  [WsEvent.sendStreamStart] ++
  chunkEvents assistantContent ++
  [WsEvent.sendStreamComplete] ++
  (if requestQuickResponses ∧ getQuickReplies controlData ≠ [] then
    [WsEvent.sendQuickResponses (getQuickReplies controlData)]
  else [])

/-- The frames actually sent over the socket (sleeps removed), in order. -/
def sentFrames (events : List WsEvent) : List WsEvent :=
  events.filter fun e =>
    match e with
    | WsEvent.sleepHundredths _ => false
    | _ => true

/-- The payloads of the stream_chunk frames of a trace, in emission order. -/
def streamChunkPayloads (events : List WsEvent) : List (List Char) :=
  events.filterMap fun e =>
    match e with
    | WsEvent.sendStreamChunk c _ => some c
    | _ => none

/-- The chunk_index fields of the stream_chunk frames of a trace, in
emission order. -/
def streamChunkIndices (events : List WsEvent) : List Nat :=
  events.filterMap fun e =>
    match e with
    | WsEvent.sendStreamChunk _ i => some i
    | _ => none

lemma streamChunkPayloads_append (l1 l2 : List WsEvent) :
    streamChunkPayloads (l1 ++ l2) =
      streamChunkPayloads l1 ++ streamChunkPayloads l2 := by
  simp [streamChunkPayloads, List.filterMap_append]

lemma streamChunkIndices_append (l1 l2 : List WsEvent) :
    streamChunkIndices (l1 ++ l2) =
      streamChunkIndices l1 ++ streamChunkIndices l2 := by
  simp [streamChunkIndices, List.filterMap_append]

lemma streamChunkPayloads_chunkEvents (c : List Char) :
    streamChunkPayloads (chunkEvents c) =
      (List.range ((c.length + 19) / 20)).map fun k => (c.drop (20 * k)).take 20 := by
  unfold chunkEvents
  generalize List.range ((c.length + 19) / 20) = l
  induction l with
  | nil => rfl
  | cons a l ih =>
    rw [List.flatMap_cons, streamChunkPayloads_append, ih]
    rfl

lemma streamChunkIndices_chunkEvents (c : List Char) :
    streamChunkIndices (chunkEvents c) =
      List.range ((c.length + 19) / 20) := by
  unfold chunkEvents
  have hmap : ∀ l : List Nat,
      streamChunkIndices (l.flatMap fun k =>
        [WsEvent.sendStreamChunk ((c.drop (20 * k)).take 20) ((20 * k) / 20),
         WsEvent.sleepHundredths 5]) = l.map fun k => (20 * k) / 20 := by
    intro l
    induction l with
    | nil => rfl
    | cons a l ih =>
      rw [List.flatMap_cons, streamChunkIndices_append, ih]
      rfl
  rw [hmap, List.map_congr_left, List.map_id]
  intro k _
  exact Nat.mul_div_cancel_left k (by norm_num)

lemma flatten_map_range_chunks (c : List Char) (n : Nat) :
    ((List.range n).map fun k => (c.drop (20 * k)).take 20).flatten = c.take (20 * n) := by
  induction n with
  | zero => simp
  | succ n ih =>
    rw [List.range_succ, List.map_append, List.flatten_append, ih]
    simp only [List.map_cons, List.map_nil, List.flatten_cons, List.flatten_nil, List.append_nil]
    rw [show 20 * (n + 1) = 20 * n + 20 by ring, List.take_add]

lemma twenty_mul_numChunks_ge (len : Nat) : len ≤ 20 * ((len + 19) / 20) := by
  have h1 := Nat.div_add_mod (len + 19) 20
  have h2 := Nat.mod_lt (len + 19) (show 0 < 20 by norm_num)
  omega

/-- Payload extraction commutes through the staged trace: only the chunk
loop contributes stream_chunk frames. -/
lemma streamChunkPayloads_staged (cd : Option WsControlData) (content : List Char)
    (re rq : Bool) :
    streamChunkPayloads (sendStagedResponse cd content re rq) =
      streamChunkPayloads (chunkEvents content) := by
  unfold sendStagedResponse
  rw [streamChunkPayloads_append, streamChunkPayloads_append,
    streamChunkPayloads_append, streamChunkPayloads_append]
  split_ifs <;> simp [streamChunkPayloads]

lemma streamChunkIndices_staged (cd : Option WsControlData) (content : List Char)
    (re rq : Bool) :
    streamChunkIndices (sendStagedResponse cd content re rq) =
      streamChunkIndices (chunkEvents content) := by
  unfold sendStagedResponse
  rw [streamChunkIndices_append, streamChunkIndices_append,
    streamChunkIndices_append, streamChunkIndices_append]
  split_ifs <;> simp [streamChunkIndices]

/-- C3: the staged WebSocket delivery chunks the fully received assistant
content client-side: the stream_chunk payloads concatenated in chunk_index
order equal the content, the chunk indices are `0, 1, 2, …`, every chunk
except possibly the last has length 20, and the number of chunks is
`⌈len(content) / 20⌉` (so zero chunks for empty content). -/
theorem staged_chunking_reassembles_content (cd : Option WsControlData)
    (content : List Char) (re rq : Bool) :
    (streamChunkPayloads (sendStagedResponse cd content re rq)).flatten = content ∧
    streamChunkIndices (sendStagedResponse cd content re rq) =
      List.range (streamChunkPayloads (sendStagedResponse cd content re rq)).length ∧
    (∀ p ∈ (streamChunkPayloads (sendStagedResponse cd content re rq)).dropLast,
      p.length = 20) ∧
    (streamChunkPayloads (sendStagedResponse cd content re rq)).length =
      (content.length + 19) / 20 := by
  rw [streamChunkPayloads_staged, streamChunkIndices_staged,
    streamChunkPayloads_chunkEvents, streamChunkIndices_chunkEvents]
  refine ⟨?_, ?_, ?_, ?_⟩
  · rw [flatten_map_range_chunks]
    exact List.take_of_length_le (twenty_mul_numChunks_ge content.length)
  · rw [List.length_map, List.length_range]
  · intro p hp
    have h1 := Nat.div_add_mod (content.length + 19) 20
    have h2 := Nat.mod_lt (content.length + 19) (show 0 < 20 by norm_num)
    rcases hcases : (content.length + 19) / 20 with _ | m
    · rw [hcases] at hp
      simp at hp
    · rw [hcases, List.range_succ, List.map_append, List.map_cons, List.map_nil,
        List.dropLast_concat] at hp
      obtain ⟨k, hk, hkp⟩ := List.mem_map.mp hp
      have hkm : k < m := List.mem_range.mp hk
      rw [← hkp]
      simp only [List.length_take, List.length_drop]
      rw [hcases] at h1
      omega
  · rw [List.length_map, List.length_range]

lemma sentFrames_append (l1 l2 : List WsEvent) :
    sentFrames (l1 ++ l2) = sentFrames l1 ++ sentFrames l2 := by
  simp [sentFrames, List.filter_append]

lemma sentFrames_chunkEvents (c : List Char) :
    sentFrames (chunkEvents c) =
      (List.range ((c.length + 19) / 20)).map fun k =>
        WsEvent.sendStreamChunk ((c.drop (20 * k)).take 20) k := by
  unfold chunkEvents
  have hstep : ∀ l : List Nat,
      sentFrames (l.flatMap fun k =>
        [WsEvent.sendStreamChunk ((c.drop (20 * k)).take 20) ((20 * k) / 20),
         WsEvent.sleepHundredths 5]) =
      l.map fun k => WsEvent.sendStreamChunk ((c.drop (20 * k)).take 20) ((20 * k) / 20) := by
    intro l
    induction l with
    | nil => rfl
    | cons a l ih =>
      rw [List.flatMap_cons, sentFrames_append, ih]
      rfl
  rw [hstep]
  refine List.map_congr_left fun k _ => ?_
  rw [Nat.mul_div_cancel_left k (show 0 < 20 by norm_num)]

/-- C2 (amended): on a successful conversation result the staged delivery
sends, in fixed order: an optional emote frame, a stream_start frame, one
stream_chunk frame per 20-character chunk of the assistant content, a
stream_complete frame, and an optional quick_responses frame — so
`(emote? 1 : 0) + 2 + ⌈len/20⌉ + (quick? 1 : 0)` frames in total
(three stages, not exactly three messages), with sleep delays after the
emote frame and after each chunk. -/
theorem staged_response_frame_sequence (cd : Option WsControlData)
    (content : List Char) (re rq : Bool) :
    sentFrames (sendStagedResponse cd content re rq) =
      (if re ∧ optStrTruthy (getEmote cd) then
        [WsEvent.sendEmote ((getEmote cd).getD []) (getEmoteGlyph cd)] else []) ++
      [WsEvent.sendStreamStart] ++
      ((List.range ((content.length + 19) / 20)).map fun k =>
        WsEvent.sendStreamChunk ((content.drop (20 * k)).take 20) k) ++
      [WsEvent.sendStreamComplete] ++
      (if rq ∧ getQuickReplies cd ≠ [] then
        [WsEvent.sendQuickResponses (getQuickReplies cd)] else []) ∧
    (sentFrames (sendStagedResponse cd content re rq)).length =
      ((if re ∧ optStrTruthy (getEmote cd) then 1 else 0) + 2 +
        (content.length + 19) / 20 +
        (if rq ∧ getQuickReplies cd ≠ [] then 1 else 0)) := by
  have hmain :
      sentFrames (sendStagedResponse cd content re rq) =
        (if re ∧ optStrTruthy (getEmote cd) then
          [WsEvent.sendEmote ((getEmote cd).getD []) (getEmoteGlyph cd)] else []) ++
        [WsEvent.sendStreamStart] ++
        ((List.range ((content.length + 19) / 20)).map fun k =>
          WsEvent.sendStreamChunk ((content.drop (20 * k)).take 20) k) ++
        [WsEvent.sendStreamComplete] ++
        (if rq ∧ getQuickReplies cd ≠ [] then
          [WsEvent.sendQuickResponses (getQuickReplies cd)] else []) := by
    unfold sendStagedResponse
    rw [sentFrames_append, sentFrames_append, sentFrames_append, sentFrames_append,
      sentFrames_chunkEvents]
    split_ifs <;> simp [sentFrames]
  refine ⟨hmain, ?_⟩
  rw [hmain]
  simp only [List.length_append, List.length_map, List.length_range]
  split_ifs <;> simp <;> omega

/-- C2 counterexample: with a successful result whose assistant content has
40 characters and no control features requested, the staged delivery sends
4 frames (stream_start, two stream_chunks, stream_complete), not exactly 3. -/
theorem staged_response_four_frames_input :
    (sentFrames (sendStagedResponse none (List.replicate 40 'a') false false)).length = 4 ∧
    (sentFrames (sendStagedResponse none (List.replicate 40 'a') false false)).length ≠ 3 := by
  constructor <;> decide

/-! ## Control service (apps/chat/control_service.py)

`ChatControlService._parse_control_response` turns the tool-call arguments
returned by the control LLM request into the `control_data` dict
(`emote`, `emote_glyph`, `quick_replies`), applying safe fallbacks. -/

/-- JSON-like value, enough to model the decoded tool-call arguments:
strings, arrays, and everything else (numbers, objects, null, …). -/
inductive JsonVal where
  | str (s : String)
  | arr (l : List JsonVal)
  | other

/-- The decoded `arguments` object of a tool call; `none` fields model
absent keys. -/
structure ControlArgs where
  emote : Option JsonVal
  quickReplies : Option JsonVal

/-- One entry of `message['tool_calls']`: the function name and its decoded
arguments (`none` models a `json.JSONDecodeError` while parsing them). -/
structure ToolCall where
  functionName : String
  arguments : Option ControlArgs

/-- `ChatControlService.EMOTE_TO_GLYPH`. -/
def EMOTE_TO_GLYPH : List (String × String) :=
  [("joy", "😄"), ("sad", "😢"), ("angry", "😠"), ("thinking", "🤔"),
   ("neutral", "🙂"), ("surprised", "😲"), ("confused", "😕"), ("excited", "🎉")]

/-- `emote in self.EMOTE_TO_GLYPH` (dict key membership). -/
def isEmoteKey (e : String) : Bool :=
  (EMOTE_TO_GLYPH.map Prod.fst).contains e

/-- `self.EMOTE_TO_GLYPH[emote]`; on the (unreachable for our uses) missing
key it yields `""` where Python would raise `KeyError`. -/
def glyphOf (e : String) : String :=
  ((EMOTE_TO_GLYPH.find? fun p => p.1 == e).map Prod.snd).getD ""

/-- The tool-call scan of `_parse_control_response`: `control_args` is the
first successfully decoded `chat_orchestrator` arguments object (the loop
`break`s there); a decode failure resets `control_args` to `{}` and keeps
scanning. -/
def findControlArgs : List ToolCall → ControlArgs
  | [] => { emote := none, quickReplies := none }
  | tc :: rest =>
    if tc.functionName = "chat_orchestrator" then
      match tc.arguments with
      | some args => args
      | none => findControlArgs rest
    else findControlArgs rest

/-- The `control_data` dict built by `_parse_control_response` (and also the
shape returned by `generate_control_data`). -/
structure ControlData where
  emote : Option String
  emoteGlyph : Option String
  quickReplies : List String
  deriving DecidableEq, Repr

/-- The quick-reply validation loop: at most the first 5 entries, keeping
only strings whose length is between 1 and 40. -/
def validReplies (l : List JsonVal) : List String :=
  (l.take 5).filterMap fun v =>
    match v with
    | JsonVal.str s => if 1 ≤ s.length ∧ s.length ≤ 40 then some s else none
    | _ => none

/-- `control_args.get("emote", "neutral")` followed by the
`emote in EMOTE_TO_GLYPH` check with fallback to `"neutral"`. -/
def resolveEmote (v : Option JsonVal) : String :=
  match v with
  | some (JsonVal.str e) => if isEmoteKey e then e else "neutral"
  | some _ => "neutral"
  | none => "neutral"

/-- `ChatControlService._parse_control_response`. -/
def parseControlResponse (toolCalls : List ToolCall)
    (requestEmote requestQuickResponses : Bool)
    (customQuickReplies : Option (List String)) : ControlData :=
  let controlArgs := findControlArgs toolCalls
  { emote :=
      if requestEmote then some (resolveEmote controlArgs.emote) else none,
    emoteGlyph :=
      if requestEmote then some (glyphOf (resolveEmote controlArgs.emote)) else none,
    quickReplies :=
      if requestQuickResponses then
        match customQuickReplies with
        | some custom => if custom ≠ [] then custom else
            match controlArgs.quickReplies with
            | some (JsonVal.arr l) => validReplies l
            | some _ => []
            | none => validReplies []
        | none =>
            match controlArgs.quickReplies with
            | some (JsonVal.arr l) => validReplies l
            | some _ => []
            | none => validReplies []
      else [] }

/-- The eight admissible emote values of the control tool schema. -/
def emoteValues : List String :=
  ["joy", "sad", "angry", "thinking", "neutral", "surprised", "confused", "excited"]

lemma resolveEmote_mem (v : Option JsonVal) : resolveEmote v ∈ emoteValues := by
  rcases v with _ | jv
  · simp [resolveEmote, emoteValues]
  · rcases jv with s | l | _
    · by_cases h : isEmoteKey s = true
      · have : s ∈ EMOTE_TO_GLYPH.map Prod.fst := by
          simpa [isEmoteKey] using h
        simp only [resolveEmote, if_pos h]
        simpa [EMOTE_TO_GLYPH, emoteValues] using this
      · simp [resolveEmote, h, emoteValues]
    · simp [resolveEmote, emoteValues]
    · simp [resolveEmote, emoteValues]

lemma validReplies_sound (l : List JsonVal) :
    (validReplies l).length ≤ 5 ∧
      ∀ r ∈ validReplies l, 1 ≤ r.length ∧ r.length ≤ 40 := by
  constructor
  · calc (validReplies l).length ≤ (l.take 5).length :=
          List.length_filterMap_le _ _
      _ ≤ 5 := by simp
  · intro r hr
    obtain ⟨v, _, hv⟩ := List.mem_filterMap.mp hr
    rcases v with s | _ | _ <;> simp_all only []
    · by_cases hlen : 1 ≤ s.length ∧ s.length ≤ 40
      · rw [if_pos hlen] at hv
        cases hv
        exact hlen
      · rw [if_neg hlen] at hv
        cases hv
    · cases hv
    · cases hv

/-- C8: a parsed control response with both features requested and no custom
quick replies has an emote from the fixed eight-element set, the glyph
mapped to that emote, and at most 5 quick replies each of length 1..40
(unknown or missing emote values fall back to `"neutral"`). -/
theorem control_data_is_structured (toolCalls : List ToolCall) :
    (parseControlResponse toolCalls true true none).emote.getD "" ∈ emoteValues ∧
    (parseControlResponse toolCalls true true none).emoteGlyph =
      some (glyphOf ((parseControlResponse toolCalls true true none).emote.getD "")) ∧
    (parseControlResponse toolCalls true true none).quickReplies.length ≤ 5 ∧
    (∀ r ∈ (parseControlResponse toolCalls true true none).quickReplies,
      1 ≤ r.length ∧ r.length ≤ 40) ∧
    (∀ s, (findControlArgs toolCalls).emote = some (JsonVal.str s) →
      isEmoteKey s = false →
      (parseControlResponse toolCalls true true none).emote = some "neutral") := by
  refine ⟨?_, ?_, ?_, ?_, ?_⟩
  · simpa [parseControlResponse] using
      resolveEmote_mem (findControlArgs toolCalls).emote
  · simp [parseControlResponse]
  · rcases h : (findControlArgs toolCalls).quickReplies with _ | jv
    · simp [parseControlResponse, h, validReplies]
    · rcases jv with s | l | _
      · simp [parseControlResponse, h]
      · simpa [parseControlResponse, h] using (validReplies_sound l).1
      · simp [parseControlResponse, h]
  · intro r hr
    rcases h : (findControlArgs toolCalls).quickReplies with _ | jv
    · simp [parseControlResponse, h, validReplies] at hr
    · rcases jv with s | l | _
      · simp [parseControlResponse, h] at hr
      · rw [parseControlResponse] at hr
        simp only [h] at hr
        exact (validReplies_sound l).2 r (by simpa using hr)
      · simp [parseControlResponse, h] at hr
  · intro s hs hkey
    simp [parseControlResponse, resolveEmote, hs, hkey]

/-! ## Conversation service (apps/chat/conversation_service.py)

`ConversationService.send_message` gathers the main LLM task and the
optional control task with `asyncio.gather(*tasks, return_exceptions=True)`
and then handles the two results.  We model the tail of `send_message`
starting at the gather: each task result is either a raised exception
(`Except.error`) or the task's value. -/

/-- The normalized LLM client response (`llm_clients.LLMResponse`), fields
relevant to the error handling. -/
structure LLMResponse where
  content : List Char
  provider : String
  model : String
  success : Bool
  error : Option String
  deriving DecidableEq, Repr

/-- Python `x or default` for an optional string (`None` and `''` falsy). -/
def pyOrString (x : Option String) (d : String) : String :=
  match x with
  | none => d
  | some s => if s ≠ "" then s else d

/-- The response data assembled by `send_message` on success, restricted to
the fields the error-handling property needs (`control_data` is present in
the dict exactly when a control feature was requested). -/
structure ResponseData where
  assistantContent : List Char
  controlData : Option ControlData
  deriving DecidableEq, Repr

/-- The `control_data or {...}` fallback dict. -/
def emptyControlData : ControlData :=
  { emote := none, emoteGlyph := none, quickReplies := [] }

/-- Tail of `ConversationService.send_message` from the
`asyncio.gather` on (lines 196–298): `llmResult` is `results[0]`,
`controlResult` is `results[1]` (meaningful only when `controlRequested`,
i.e. `request_emote or request_quick_responses`), and `storeAssistantOk`
is whether `ChatMessageService.add_message` stored the assistant reply. -/
def sendMessageAfterGather
    (llmResult : Except String LLMResponse)
    (controlRequested : Bool)
    (controlResult : Except String (Option ControlData × List String))
    (storeAssistantOk : Bool) : Option ResponseData × List String :=
  let controlPair : Option ControlData × List String :=
    if controlRequested then
      match controlResult with
      | Except.error e => (none, ["Control request failed: " ++ e])
      | Except.ok (cd, errs) => (cd, errs)
    else (none, [])
  match llmResult with
  | Except.error e => (none, ["LLM request failed: " ++ e])
  | Except.ok resp =>
    if resp.success then
      if storeAssistantOk then
        (some { assistantContent := resp.content,
                controlData :=
                  if controlRequested then some (controlPair.1.getD emptyControlData)
                  else none },
         controlPair.2)
      else (none, ["Failed to store assistant response"])
    else (none, ["LLM request failed: " ++ pyOrString resp.error "Unknown LLM error"])

/-- `results[0]` "fails": it is a raised exception or an unsuccessful
`LLMResponse`. -/
def llmFailed (llmResult : Except String LLMResponse) : Bool :=
  match llmResult with
  | Except.error _ => true
  | Except.ok resp => !resp.success

/-- C1 counterexample: the main LLM request succeeds while the control
request raises — `send_message` still returns response data (not `None`),
with the control failure only reported in the error list.  So a failure of
"either of the two parallel requests" does not force a `None` result. -/
theorem send_message_survives_control_failure :
    (sendMessageAfterGather
        (Except.ok { content := ['h', 'i'], provider := "openai", model := "gpt-4",
                     success := true, error := none })
        true (Except.error "boom") true).1 ≠ none ∧
    (sendMessageAfterGather
        (Except.ok { content := ['h', 'i'], provider := "openai", model := "gpt-4",
                     success := true, error := none })
        true (Except.error "boom") true).2 = ["Control request failed: boom"] := by
  constructor
  · simp [sendMessageAfterGather]
  · simp [sendMessageAfterGather]

/-- C1 (amended): only a failure of the main LLM request is fatal: whenever
`results[0]` is a raised exception or an unsuccessful response,
`send_message` returns `None` together with a non-empty error list
(a control-request failure alone is reported as a warning next to the
successful response data, as the counterexample shows). -/
theorem send_message_none_on_main_llm_failure
    (llmResult : Except String LLMResponse) (controlRequested : Bool)
    (controlResult : Except String (Option ControlData × List String))
    (storeAssistantOk : Bool)
    (h : llmFailed llmResult = true) :
    (sendMessageAfterGather llmResult controlRequested controlResult
        storeAssistantOk).1 = none ∧
    (sendMessageAfterGather llmResult controlRequested controlResult
        storeAssistantOk).2 ≠ [] := by
  rcases llmResult with e | resp
  · simp [sendMessageAfterGather]
  · have hs : resp.success = false := by
      simpa [llmFailed] using h
    simp [sendMessageAfterGather, hs]

/-- Witness for the amended C1 theorem at a concrete failed response. -/
theorem send_message_none_on_main_llm_failure_witness :
    (sendMessageAfterGather
        (Except.ok { content := [], provider := "openai", model := "gpt-4",
                     success := false, error := some "rate limited" })
        false (Except.ok (none, [])) true).1 = none ∧
    (sendMessageAfterGather
        (Except.ok { content := [], provider := "openai", model := "gpt-4",
                     success := false, error := some "rate limited" })
        false (Except.ok (none, [])) true).2 ≠ [] :=
  send_message_none_on_main_llm_failure
    (Except.ok { content := [], provider := "openai", model := "gpt-4",
                 success := false, error := some "rate limited" })
    false (Except.ok (none, [])) true (by decide)

/-! ## Message processing pipeline (apps/chat/processors.py)

`MessagePreProcessor.process` threads the message content through
`ContentFilterProcessor`, `ContextEnhancementProcessor`,
`PersonalizationProcessor`, `FormattingProcessor` in that order
(`processed = processor.process(processed.content, context)`).
We model each processor's effect on the content (ASCII fragment of the
Python regex semantics). -/

/-- The characters matched by `\s` / removed by `str.strip()`
(ASCII fragment). -/
def isPySpace (c : Char) : Bool :=
  c = ' ' ∨ c = '\t' ∨ c = '\n' ∨ c = '\r' ∨ c = '\x0b' ∨ c = '\x0c'

/-- `str.strip()`. -/
def pyStrip (s : List Char) : List Char :=
  ((s.dropWhile isPySpace).reverse.dropWhile isPySpace).reverse

/-- `re.sub(repl-per-run)` worker shared by `re.sub(r'\s+', ' ', ·)` and
`re.sub(r'\s+', '_', ·)`: each maximal whitespace run becomes one `repl`
character; `inRun` says whether the previous character was whitespace. -/
def collapseRuns (repl : Char) (inRun : Bool) : List Char → List Char
  | [] => []
  | c :: rest =>
    if isPySpace c then
      if inRun then collapseRuns repl true rest
      else repl :: collapseRuns repl true rest
    else c :: collapseRuns repl false rest

/-- ASCII lowercase (`str.lower()` on the ASCII range). -/
def toLowerAscii (c : Char) : Char :=
  if 'A' ≤ c ∧ c ≤ 'Z' then Char.ofNat (c.toNat + 32) else c

/-- ASCII uppercase (`str.upper()` on the ASCII range). -/
def toUpperAscii (c : Char) : Char :=
  if 'a' ≤ c ∧ c ≤ 'z' then Char.ofNat (c.toNat - 32) else c

/-- `str.isupper()` for a single character (ASCII fragment). -/
def isUpperAscii (c : Char) : Bool :=
  'A' ≤ c ∧ c ≤ 'Z'

/-- A regex word character (`\w`, ASCII fragment). -/
def isWordChar (c : Char) : Bool :=
  ('a' ≤ c ∧ c ≤ 'z') ∨ ('A' ≤ c ∧ c ≤ 'Z') ∨ ('0' ≤ c ∧ c ≤ '9') ∨ c = '_'

/-- Case-insensitive match of the word `w` at the head of `s` with a
trailing `\b`: the next character (if any) is not a word character. -/
def matchesWordAt (w : List Char) (s : List Char) : Bool :=
  ((s.take w.length).map toLowerAscii == w) &&
  (match s.drop w.length with
   | [] => true
   | d :: _ => !isWordChar d)

/-- `re.sub(r'\b(spam|test123)\b', '[filtered]', s, flags=re.IGNORECASE)`:
left-to-right scan for non-overlapping whole-word occurrences; `prevIsWord`
tracks whether the previous character of the original string was a word
character (for the leading `\b`).  After a replacement the previous
character is the last letter of the matched word, a word character. -/
def replaceBannedWords (prevIsWord : Bool) : List Char → List Char
  | [] => []
  | c :: rest =>
    if !prevIsWord ∧ matchesWordAt (['s', 'p', 'a', 'm']) (c :: rest) then
      ['[', 'f', 'i', 'l', 't', 'e', 'r', 'e', 'd', ']'] ++
        replaceBannedWords true (rest.drop 3)
    else if !prevIsWord ∧ matchesWordAt (['t', 'e', 's', 't', '1', '2', '3']) (c :: rest) then
      ['[', 'f', 'i', 'l', 't', 'e', 'r', 'e', 'd', ']'] ++
        replaceBannedWords true (rest.drop 6)
    else c :: replaceBannedWords (isWordChar c) rest
termination_by s => s.length
decreasing_by
  · simp only [List.length_cons, List.length_drop]
    omega
  · simp only [List.length_cons, List.length_drop]
    omega
  · simp

/-- `ContentFilterProcessor.process` on the content: strip, collapse
whitespace runs to single spaces, replace the whole words `spam` and
`test123` (case-insensitively) with `[filtered]`. -/
def contentFilterProcess (content : List Char) : List Char :=
  replaceBannedWords false (collapseRuns ' ' false (pyStrip content))

/-- `ContextEnhancementProcessor.process` on the content: the content is
returned unchanged (only structured data is added). -/
def contextEnhancementProcess (content : List Char) : List Char :=
  content

/-- `MessageProcessingPipeline._get_user_preferences` result shape. -/
structure UserPreferences where
  tone : String
  detailLevel : String
  codeHighlighting : Bool
  markdownRendering : Bool
  deriving DecidableEq, Repr

/-- `_get_user_preferences`: hard-coded defaults for every user id. -/
def getUserPreferences (_userId : Nat) : UserPreferences :=
  { tone := "balanced", detailLevel := "medium",
    codeHighlighting := true, markdownRendering := true }

/-- `PersonalizationProcessor.process` on the content: a tone instruction
is prepended for the `formal`/`casual` tones, otherwise unchanged. -/
def personalizationProcess (prefs : UserPreferences) (content : List Char) : List Char :=
  if prefs.tone = "formal" then
    ("Please respond in a formal tone. ").toList ++ content
  else if prefs.tone = "casual" then
    ("Please respond in a casual, friendly tone. ").toList ++ content
  else content

/-- `content.endswith(('.', '!', '?'))`. -/
def endsWithSentencePunct (content : List Char) : Bool :=
  match content.getLast? with
  | none => false
  | some c => c = '.' ∨ c = '!' ∨ c = '?'

/-- `FormattingProcessor.process` on the content: append `'.'` when the
content does not end in `.`/`!`/`?`, then uppercase the first character if
it is not already uppercase. -/
def formattingProcess (content : List Char) : List Char :=
  let withPeriod := if endsWithSentencePunct content then content else content ++ ['.']
  match withPeriod with
  | [] => []
  | c :: rest => if !isUpperAscii c then toUpperAscii c :: rest else c :: rest

/-- `MessagePreProcessor.process` on the content: the four pre-processors
applied in order. -/
def preProcessContent (prefs : UserPreferences) (message : List Char) : List Char :=
  formattingProcess
    (personalizationProcess prefs
      (contextEnhancementProcess
        (contentFilterProcess message)))

/-- `MessageProcessingPipeline.process_user_message` on the content: the
pre-processors run with the hard-coded user preferences. -/
def processUserMessageContent (userId : Nat) (message : List Char) : List Char :=
  preProcessContent (getUserPreferences userId) message

/-- C5: `process_user_message` applies, in this fixed order, the content
filter (strip/collapse/whole-word `[filtered]` replacement), the context
enhancement (content unchanged), the personalization (content unchanged
under the default `balanced` tone), and the formatting (append `'.'`,
uppercase the first character) — so the resulting content is exactly
`formatting (contentFilter message)`. -/
theorem process_user_message_content (userId : Nat) (message : List Char) :
    processUserMessageContent userId message =
      formattingProcess (contentFilterProcess message) ∧
    (∀ c : List Char, contextEnhancementProcess c = c) ∧
    (∀ c : List Char, personalizationProcess (getUserPreferences userId) c = c) ∧
    processUserMessageContent 1
        (("  hello   SPAM world").toList) = ("Hello [filtered] world.").toList := by
  refine ⟨?_, fun c => rfl, fun c => ?_, ?_⟩
  · simp [processUserMessageContent, preProcessContent, contextEnhancementProcess,
      personalizationProcess, getUserPreferences]
  · simp [personalizationProcess, getUserPreferences]
  · simp [processUserMessageContent, preProcessContent, contextEnhancementProcess,
      personalizationProcess, getUserPreferences, contentFilterProcess, pyStrip,
      collapseRuns, isPySpace, replaceBannedWords, matchesWordAt, isWordChar,
      toLowerAscii, formattingProcess, endsWithSentencePunct, isUpperAscii,
      toUpperAscii]

/-! ## Response cache key (apps/chat/processors.py, ResponseCacheManager)

`generate_cache_key` md5-hashes the sorted JSON dump of
`{'message': message, 'preset_key': context.session_config.get('preset_key'),
'user_preferences': context.user_preferences}`.  Since `json.dumps(...,
sort_keys=True)` and `md5` are deterministic functions of that data, we
model the key by the hashed data itself: two calls produce equal keys
whenever they hash equal data. -/

/-- The session configuration dict, with the fields the embedded services
read; `presetKey` is the value of `session_config.get('preset_key')`
(`none` when the key is absent — as it is for the dicts built by
`ChatSessionService.get_session_config`). -/
structure SessionConfig where
  sessionId : String
  modelConfig : String
  contextConfig : String
  userId : Nat
  messageCount : Nat
  title : String
  presetKey : Option String
  deriving DecidableEq, Repr

/-- `processors.ProcessingContext`. -/
structure ProcessingContext where
  userId : Nat
  sessionId : String
  sessionConfig : SessionConfig
  messageHistory : List (String × List Char)
  userPreferences : UserPreferences
  deriving DecidableEq, Repr

/-- `MessageProcessingPipeline._create_context`. -/
def createContext (userId : Nat) (sessionId : String) (sessionConfig : SessionConfig)
    (messageHistory : List (String × List Char)) : ProcessingContext :=
  { userId := userId, sessionId := sessionId, sessionConfig := sessionConfig,
    messageHistory := messageHistory,
    userPreferences := getUserPreferences userId }

/-- The data hashed by `ResponseCacheManager.generate_cache_key`. -/
structure CacheKeyData where
  message : List Char
  presetKey : Option String
  userPreferences : UserPreferences
  deriving DecidableEq, Repr

/-- `ResponseCacheManager.generate_cache_key`, up to the deterministic
`json.dumps`/`md5` post-composition. -/
def generateCacheKey (message : List Char) (context : ProcessingContext) : CacheKeyData :=
  { message := message,
    presetKey := context.sessionConfig.presetKey,
    userPreferences := context.userPreferences }

/-- C9: the cache key depends only on the raw user message, the session
configuration's `preset_key` and the hard-coded constant user preferences —
not on the conversation history, model/context config, session id or user
id.  Two `send_message` calls with the same message and the same
`preset_key`, even from different sessions/users/histories, hash the same
data, hence get the same cache key. -/
theorem cache_key_ignores_session_and_history (message : List Char)
    (u1 u2 : Nat) (s1 s2 : String) (cfg1 cfg2 : SessionConfig)
    (h1 h2 : List (String × List Char))
    (hpreset : cfg1.presetKey = cfg2.presetKey) :
    generateCacheKey message (createContext u1 s1 cfg1 h1) =
      generateCacheKey message (createContext u2 s2 cfg2 h2) := by
  simp [generateCacheKey, createContext, getUserPreferences, hpreset]

/-- Witness for C9: two sessions differing in user, session id, configs and
history but with the same absent `preset_key` share the cache key. -/
theorem cache_key_ignores_session_and_history_witness :
    generateCacheKey (("hi").toList)
        (createContext 1 "sess-a"
          { sessionId := "sess-a", modelConfig := "anthropic",
            contextConfig := "ctx1", userId := 1, messageCount := 0,
            title := "A", presetKey := none }
          []) =
      generateCacheKey (("hi").toList)
        (createContext 2 "sess-b"
          { sessionId := "sess-b", modelConfig := "openai",
            contextConfig := "ctx2", userId := 2, messageCount := 7,
            title := "B", presetKey := none }
          [("user", ("earlier").toList)]) :=
  cache_key_ignores_session_and_history (("hi").toList) 1 2 "sess-a" "sess-b"
    { sessionId := "sess-a", modelConfig := "anthropic", contextConfig := "ctx1",
      userId := 1, messageCount := 0, title := "A", presetKey := none }
    { sessionId := "sess-b", modelConfig := "openai", contextConfig := "ctx2",
      userId := 2, messageCount := 7, title := "B", presetKey := none }
    [] [("user", ("earlier").toList)] rfl

/-! ## Chat session services (apps/chat/services.py, apps/chat/models.py)

`ChatSession` rows carry `is_active` and `expires_at`;
`ChatSession.is_expired` is `timezone.now() > self.expires_at`.  The
services look a session up with
`ChatSession.objects.get(session_id=..., is_active=True)` and bail out with
`None` on `DoesNotExist` or on expiry.  Times are modelled as integers and
the messages of a session as a list embedded in its row. -/

/-- A `ChatMessage` row (fields the services read/write). -/
structure ChatMessageRow where
  role : String
  content : List Char
  deriving DecidableEq, Repr

/-- A `ChatSession` row (fields the services read/write). -/
structure ChatSessionRow where
  sessionId : String
  userId : Nat
  isActive : Bool
  expiresAt : Int
  modelConfig : String
  contextConfig : String
  title : String
  createdAt : Int
  messages : List ChatMessageRow
  deriving DecidableEq, Repr

/-- `ChatSession.is_expired`: `timezone.now() > self.expires_at`. -/
def sessionIsExpired (now : Int) (r : ChatSessionRow) : Bool :=
  now > r.expiresAt

/-- `ChatSession.objects.get(session_id=session_id, is_active=True)`
(`none` models `ChatSession.DoesNotExist`; `session_id` is unique). -/
def getActiveSession : List ChatSessionRow → String → Option ChatSessionRow
  | [], _ => none
  | r :: rest, sid =>
    if r.sessionId = sid ∧ r.isActive = true then some r
    else getActiveSession rest sid

/-- `session.is_active = False; session.save(update_fields=['is_active'])`
applied to the row `get` found. -/
def markFirstInactive : List ChatSessionRow → String → List ChatSessionRow
  | [], _ => []
  | r :: rest, sid =>
    if r.sessionId = sid ∧ r.isActive = true then
      { r with isActive := false } :: rest
    else r :: markFirstInactive rest sid

/-- The dict returned by `ChatSessionService.get_session_config`. -/
structure SessionConfigData where
  sessionId : String
  modelConfig : String
  contextConfig : String
  userId : Nat
  createdAt : Int
  expiresAt : Int
  messageCount : Nat
  title : String
  deriving DecidableEq, Repr

/-- `ChatSessionService.get_session_config`: `None` when the session is
missing/inactive or expired; an expired session is additionally marked
inactive.  Returns the result and the database after the call. -/
def getSessionConfig (db : List ChatSessionRow) (sid : String) (now : Int) :
    Option SessionConfigData × List ChatSessionRow :=
  match getActiveSession db sid with
  | none => (none, db)
  | some s =>
    if sessionIsExpired now s then (none, markFirstInactive db sid)
    else
      (some { sessionId := s.sessionId, modelConfig := s.modelConfig,
              contextConfig := s.contextConfig, userId := s.userId,
              createdAt := s.createdAt, expiresAt := s.expiresAt,
              messageCount := s.messages.length, title := s.title }, db)

/-- The dict returned by `ChatMessageService.add_message`. -/
structure MessageData where
  sessionId : String
  role : String
  content : List Char
  deriving DecidableEq, Repr

/-- Append the created `ChatMessage` to the found session's row. -/
def appendMessageFirst : List ChatSessionRow → String → ChatMessageRow →
    List ChatSessionRow
  | [], _, _ => []
  | r :: rest, sid, m =>
    if r.sessionId = sid ∧ r.isActive = true then
      { r with messages := r.messages ++ [m] } :: rest
    else r :: appendMessageFirst rest sid m

/-- `ChatMessageService.add_message`: `None` (and no write) when the
session is missing/inactive or expired; otherwise the message is created
on the session.  Returns the result and the database after the call. -/
def addMessage (db : List ChatSessionRow) (sid : String) (role : String)
    (content : List Char) (now : Int) : Option MessageData × List ChatSessionRow :=
  match getActiveSession db sid with
  | none => (none, db)
  | some s =>
    if sessionIsExpired now s then (none, db)
    else
      (some { sessionId := sid, role := role, content := content },
       appendMessageFirst db sid { role := role, content := content })

/-- The dict returned by `ChatMessageService.get_message_history`. -/
structure MessageHistoryData where
  messages : List ChatMessageRow
  sessionId : String
  totalCount : Nat
  hasMore : Bool
  offset : Nat
  limit : Option Nat
  deriving DecidableEq, Repr

/-- `ChatMessageService.get_message_history` (read-only): `None` when the
session is missing/inactive or expired; otherwise the paginated slice
(`if limit:` treats `None` and `0` as no limit). -/
def getMessageHistory (db : List ChatSessionRow) (sid : String) (now : Int)
    (limit : Option Nat) (offset : Nat) : Option MessageHistoryData :=
  match getActiveSession db sid with
  | none => none
  | some s =>
    if sessionIsExpired now s then none
    else
      let queryset := s.messages.drop offset
      let totalCount := s.messages.length
      match limit with
      | some l =>
        if l ≠ 0 then
          some { messages := queryset.take l, sessionId := sid,
                 totalCount := totalCount, hasMore := offset + l < totalCount,
                 offset := offset, limit := some l }
        else
          some { messages := queryset, sessionId := sid,
                 totalCount := totalCount, hasMore := false,
                 offset := offset, limit := some l }
      | none =>
        some { messages := queryset, sessionId := sid,
               totalCount := totalCount, hasMore := false,
               offset := offset, limit := none }

/-- `ChatMessageService.get_conversation_context` (read-only): `None` when
the session is missing/inactive or expired; otherwise the last
`max_messages` non-system messages in chronological order as
`(role, content)` pairs. -/
def getConversationContext (db : List ChatSessionRow) (sid : String) (now : Int)
    (maxMessages : Nat) : Option (List (String × List Char)) :=
  match getActiveSession db sid with
  | none => none
  | some s =>
    if sessionIsExpired now s then none
    else
      some ((((s.messages.filter fun m => !(m.role = "system")).reverse.take
        maxMessages).reverse).map fun m => (m.role, m.content))

lemma getActiveSession_none_of_all_expired (db : List ChatSessionRow) (sid : String)
    (now : Int)
    (hExp : ∀ r ∈ db, r.sessionId = sid → r.isActive = true →
      sessionIsExpired now r = true) :
    getActiveSession db sid = none ∨
      ∃ s, getActiveSession db sid = some s ∧ sessionIsExpired now s = true := by
  induction db with
  | nil => exact Or.inl rfl
  | cons r rest ih =>
    by_cases hr : r.sessionId = sid ∧ r.isActive = true
    · refine Or.inr ⟨r, ?_, hExp r (by simp) hr.1 hr.2⟩
      simp [getActiveSession, hr]
    · have := ih fun x hx => hExp x (by simp [hx])
      simpa [getActiveSession, hr] using this

lemma not_match_of_getActiveSession_none (db : List ChatSessionRow) (sid : String)
    (h : getActiveSession db sid = none) :
    ∀ r ∈ db, r.sessionId = sid → r.isActive = false := by
  induction db with
  | nil => intro r hr; simp at hr
  | cons x rest ih =>
    intro r hr hrs
    rw [getActiveSession] at h
    by_cases hx : x.sessionId = sid ∧ x.isActive = true
    · rw [if_pos hx] at h
      cases h
    · rw [if_neg hx] at h
      rcases List.mem_cons.mp hr with he | he
      · subst he
        cases hb : r.isActive
        · rfl
        · exact absurd ⟨hrs, hb⟩ hx
      · exact ih h r he hrs

lemma markFirstInactive_deactivates (db : List ChatSessionRow) (sid : String)
    (hU : (db.map (·.sessionId)).Nodup) :
    ∀ r ∈ markFirstInactive db sid, r.sessionId = sid → r.isActive = false := by
  induction db with
  | nil => intro r hr; simp [markFirstInactive] at hr
  | cons x rest ih =>
    rw [List.map_cons, List.nodup_cons] at hU
    by_cases hx : x.sessionId = sid ∧ x.isActive = true
    · intro r hr hrs
      rw [markFirstInactive, if_pos hx] at hr
      rcases List.mem_cons.mp hr with h | h
      · rw [h]
      · exfalso
        have hmem : r.sessionId ∈ rest.map (·.sessionId) :=
          List.mem_map_of_mem (·.sessionId) h
        rw [hrs, ← hx.1] at hmem
        exact hU.1 hmem
    · intro r hr hrs
      rw [markFirstInactive, if_neg hx] at hr
      rcases List.mem_cons.mp hr with h | h
      · subst h
        cases hb : r.isActive
        · rfl
        · exact absurd ⟨hrs, hb⟩ hx
      · exact ih hU.2 r h hrs

/-- C6: sessions are TTL-bound.  If every active row with the given
session id is expired (in particular if the session is missing, inactive,
or its `expires_at` is strictly in the past), then `get_session_config`,
`add_message`, `get_message_history` and `get_conversation_context` all
return `None`; `add_message` performs no write (the database is unchanged);
and `get_session_config` additionally leaves no active row with that
session id behind. -/
theorem expired_session_operations_return_none
    (db : List ChatSessionRow) (sid : String) (now : Int) (role : String)
    (content : List Char) (limit : Option Nat) (offset maxMessages : Nat)
    (hU : (db.map (·.sessionId)).Nodup)
    (hExp : ∀ r ∈ db, r.sessionId = sid → r.isActive = true →
      sessionIsExpired now r = true) :
    (getSessionConfig db sid now).1 = none ∧
    (∀ r ∈ (getSessionConfig db sid now).2, r.sessionId = sid →
      r.isActive = false) ∧
    (addMessage db sid role content now).1 = none ∧
    (addMessage db sid role content now).2 = db ∧
    getMessageHistory db sid now limit offset = none ∧
    getConversationContext db sid now maxMessages = none := by
  rcases getActiveSession_none_of_all_expired db sid now hExp with hnone | ⟨s, hs, hsx⟩
  · refine ⟨?_, ?_, ?_, ?_, ?_, ?_⟩
    · simp [getSessionConfig, hnone]
    · intro r hr hrs
      simp only [getSessionConfig, hnone] at hr
      exact not_match_of_getActiveSession_none db sid hnone r hr hrs
    · simp [addMessage, hnone]
    · simp [addMessage, hnone]
    · simp [getMessageHistory, hnone]
    · simp [getConversationContext, hnone]
  · refine ⟨?_, ?_, ?_, ?_, ?_, ?_⟩
    · simp [getSessionConfig, hs, hsx]
    · intro r hr hrs
      simp only [getSessionConfig, hs, hsx, if_true] at hr
      exact markFirstInactive_deactivates db sid hU r hr hrs
    · simp [addMessage, hs, hsx]
    · simp [addMessage, hs, hsx]
    · simp [getMessageHistory, hs, hsx]
    · simp [getConversationContext, hs, hsx]

/-- Witness for C6 on a one-session database whose session expired one
tick ago. -/
theorem expired_session_operations_return_none_witness :
    (getSessionConfig
        [{ sessionId := "s1", userId := 1, isActive := true, expiresAt := 99,
           modelConfig := "m", contextConfig := "c", title := "T",
           createdAt := 0, messages := [] }] "s1" 100).1 = none ∧
    (∀ r ∈ (getSessionConfig
        [{ sessionId := "s1", userId := 1, isActive := true, expiresAt := 99,
           modelConfig := "m", contextConfig := "c", title := "T",
           createdAt := 0, messages := [] }] "s1" 100).2,
      r.sessionId = "s1" → r.isActive = false) ∧
    (addMessage
        [{ sessionId := "s1", userId := 1, isActive := true, expiresAt := 99,
           modelConfig := "m", contextConfig := "c", title := "T",
           createdAt := 0, messages := [] }] "s1" "user" (("hi").toList) 100).1 = none ∧
    (addMessage
        [{ sessionId := "s1", userId := 1, isActive := true, expiresAt := 99,
           modelConfig := "m", contextConfig := "c", title := "T",
           createdAt := 0, messages := [] }] "s1" "user" (("hi").toList) 100).2 =
      [{ sessionId := "s1", userId := 1, isActive := true, expiresAt := 99,
         modelConfig := "m", contextConfig := "c", title := "T",
         createdAt := 0, messages := [] }] ∧
    getMessageHistory
        [{ sessionId := "s1", userId := 1, isActive := true, expiresAt := 99,
           modelConfig := "m", contextConfig := "c", title := "T",
           createdAt := 0, messages := [] }] "s1" 100 (some 10) 0 = none ∧
    getConversationContext
        [{ sessionId := "s1", userId := 1, isActive := true, expiresAt := 99,
           modelConfig := "m", contextConfig := "c", title := "T",
           createdAt := 0, messages := [] }] "s1" 100 20 = none :=
  expired_session_operations_return_none
    [{ sessionId := "s1", userId := 1, isActive := true, expiresAt := 99,
       modelConfig := "m", contextConfig := "c", title := "T",
       createdAt := 0, messages := [] }] "s1" 100 "user" (("hi").toList)
    (some 10) 0 20 (by decide) (by decide)


/-! ## Agenda markdown parser (apps/responses/utils.py)

`parse_agenda_items` walks the markdown line by line with a current-section
state, collects `### N. Title` items inside the `## Items` section, builds
question ids with `generate_question_id`, and finally sorts the items by
number. -/

/-- ASCII digit (`\d`, ASCII fragment). -/
def isAsciiDigit (c : Char) : Bool :=
  '0' ≤ c ∧ c ≤ '9'

/-- ASCII alphanumeric (`[a-zA-Z0-9]`). -/
def isAsciiAlphanum (c : Char) : Bool :=
  ('a' ≤ c ∧ c ≤ 'z') ∨ ('A' ≤ c ∧ c ≤ 'Z') ∨ ('0' ≤ c ∧ c ≤ '9')

/-- The characters kept by `re.sub(r'[^a-zA-Z0-9\s]', '', ·)`. -/
def keepIdChar (c : Char) : Bool :=
  isAsciiAlphanum c ∨ isPySpace c

/-- `str.strip('_')`. -/
def stripUnderscores (s : List Char) : List Char :=
  ((s.dropWhile fun c => c = '_').reverse.dropWhile fun c => c = '_').reverse

/-- `generate_question_id`: lowercase, delete characters that are neither
alphanumeric nor whitespace, replace whitespace runs with single
underscores, then strip leading/trailing underscores. -/
def generateQuestionId (title : List Char) : List Char :=
  stripUnderscores (collapseRuns '_' false ((title.map toLowerAscii).filter keepIdChar))

/-- The question-id derivation as the specification sentence words it
(lowercase, delete non-alphanumeric non-space characters, replace
whitespace runs with underscores) — without the final `strip('_')` the
code also performs.  For comparison with `generateQuestionId`. -/
def specQuestionId (title : List Char) : List Char :=
  collapseRuns '_' false ((title.map toLowerAscii).filter keepIdChar)

/-- `int(digits)` for a non-empty ASCII digit string. -/
def natOfDigits (digits : List Char) : Nat :=
  digits.foldl (fun n c => 10 * n + (c.toNat - ('0').toNat)) 0

/-- `re.match(r'^### (\d+)\. (.+)$', line)`: the literal `### `, one or
more digits, a literal `.`, a space, and a non-empty title running to the
end of the line. -/
def parseItemLine (line : List Char) : Option (Nat × List Char) :=
  if line.take 4 = ("### ").toList then
    let rest := line.drop 4
    let digits := rest.takeWhile isAsciiDigit
    if digits = [] then none
    else
      match rest.dropWhile isAsciiDigit with
      | '.' :: ' ' :: title => if title = [] then none else some (natOfDigits digits, title)
      | _ => none
  else none

/-- The two content sections of the parser state machine
(`current_section`). -/
inductive AgendaSection where
  | about
  | items
  deriving DecidableEq, Repr

/-- One parsed agenda item (the constant empty `description` field is
omitted). -/
structure AgendaItem where
  number : Nat
  title : List Char
  questionId : List Char
  deriving DecidableEq, Repr

/-- The line loop of `parse_agenda_items`: strips each line, skips empty
lines, switches the section on `## About` / `## Items` / other `##` or
`# ` headers, collects about lines (those not starting with `#`) and the
items matching `### N. Title`, in input order. -/
def agendaScan : List (List Char) → Option AgendaSection →
    List (List Char) × List AgendaItem
  | [], _ => ([], [])
  | l :: rest, sec =>
    let line := pyStrip l
    if line = [] then agendaScan rest sec
    else if (("## About").toList).isPrefixOf line then
      agendaScan rest (some AgendaSection.about)
    else if (("## Items").toList).isPrefixOf line then
      agendaScan rest (some AgendaSection.items)
    else if (("##").toList).isPrefixOf line ∧ ¬ (("###").toList).isPrefixOf line then
      agendaScan rest none
    else if (("# ").toList).isPrefixOf line ∧ ¬ (("##").toList).isPrefixOf line then
      agendaScan rest none
    else
      match sec with
      | some AgendaSection.about =>
        if ¬ (("#").toList).isPrefixOf line then
          (line :: (agendaScan rest sec).1, (agendaScan rest sec).2)
        else agendaScan rest sec
      | some AgendaSection.items =>
        (match parseItemLine line with
         | some (n, title) =>
           ((agendaScan rest sec).1,
            { number := n, title := title,
              questionId := generateQuestionId title } :: (agendaScan rest sec).2)
         | none => agendaScan rest sec)
      | none => agendaScan rest sec

/-- The parsed agenda structure (`about` text and `items` list). -/
structure AgendaResult where
  about : List Char
  items : List AgendaItem
  deriving DecidableEq, Repr

/-- `items.sort(key=lambda x: x['number'])` ordering. -/
def itemLe (a b : AgendaItem) : Prop :=
  a.number ≤ b.number

instance : DecidableRel itemLe :=
  fun a b => Nat.decLe a.number b.number

instance : IsTotal AgendaItem itemLe :=
  ⟨fun a b => Nat.le_total a.number b.number⟩

instance : IsTrans AgendaItem itemLe :=
  ⟨fun _ _ _ h1 h2 => Nat.le_trans h1 h2⟩

/-- `parse_agenda_items` on a string: early return for empty content,
otherwise split on newlines, scan, join/strip the about lines, and sort
the items by number (a stable sort, like Python's). -/
def parseAgendaItems (content : List Char) : AgendaResult :=
  if content = [] then { about := [], items := [] }
  else
    let scanned := agendaScan (content.splitOn '\n') none
    { about := pyStrip (List.intercalate ['\n'] scanned.1),
      items := List.insertionSort itemLe scanned.2 }

/-- `parse_agenda_items` as called with an `Optional[str]` course agenda
(`if not agenda_content` catches both `None` and `''`). -/
def parseAgendaItemsOpt : Option (List Char) → AgendaResult
  | none => { about := [], items := [] }
  | some c => parseAgendaItems c

lemma agendaScan_questionId (lines : List (List Char)) :
    ∀ (sec : Option AgendaSection), ∀ it ∈ (agendaScan lines sec).2,
      it.questionId = generateQuestionId it.title := by
  induction lines with
  | nil =>
    intro sec it hit
    simp [agendaScan] at hit
  | cons l rest ih =>
    intro sec it hit
    rcases sec with _ | s
    · simp only [agendaScan] at hit
      split_ifs at hit <;> exact ih _ it hit
    · rcases s with _ | _
      · simp only [agendaScan] at hit
        split_ifs at hit <;> exact ih _ it hit
      · simp only [agendaScan] at hit
        split_ifs at hit with h1 h2 h3 h4 h5
        · exact ih _ it hit
        · exact ih _ it hit
        · exact ih _ it hit
        · exact ih _ it hit
        · exact ih _ it hit
        · rcases hpl : parseItemLine (pyStrip l) with _ | ⟨n, title⟩ <;>
            rw [hpl] at hit
          · exact ih _ it hit
          · rcases List.mem_cons.mp hit with he | he
            · rw [he]
            · exact ih _ it he

/-- C7 (amended): `parse_agenda_items` returns the items of the `## Items`
section (one entry per line matching `### N. Title`, in the order the scan
collects them) sorted in nondecreasing order of their number; every entry's
question id is derived from its title by lowercasing, deleting
non-alphanumeric non-space characters, replacing whitespace runs with
underscores, and stripping leading/trailing underscores; empty or `None`
input yields `{"about": "", "items": []}`. -/
theorem parse_agenda_items_sorted (content : List Char) :
    (parseAgendaItems content).items.Sorted itemLe ∧
    (parseAgendaItems content).items.Perm
      (agendaScan (content.splitOn '\n') none).2 ∧
    (∀ it ∈ (parseAgendaItems content).items,
      it.questionId = generateQuestionId it.title) ∧
    parseAgendaItems [] = { about := [], items := [] } ∧
    parseAgendaItemsOpt none = { about := [], items := [] } := by
  by_cases hc : content = []
  · subst hc
    refine ⟨by simp [parseAgendaItems], ?_, ?_, rfl, rfl⟩
    · simp only [parseAgendaItems]
      decide
    · intro it hit
      simp [parseAgendaItems] at hit
  · refine ⟨?_, ?_, ?_, rfl, rfl⟩
    · simp only [parseAgendaItems, if_neg hc]
      exact List.sorted_insertionSort itemLe _
    · simp only [parseAgendaItems, if_neg hc]
      exact List.perm_insertionSort itemLe _
    · intro it hit
      simp only [parseAgendaItems, if_neg hc] at hit
      have hmem : it ∈ (agendaScan (content.splitOn '\n') none).2 :=
        (List.perm_insertionSort itemLe _).mem_iff.mp hit
      exact agendaScan_questionId _ none it hmem

/-- C7 counterexample: for the agenda `## Items\n### 1. a !` the code
produces question id `a` (after `strip('_')`), while the claim's stated
derivation (without underscore stripping) produces `a_`. -/
theorem parse_agenda_question_id_differs :
    (parseAgendaItems (("## Items\n### 1. a !").toList)).items =
      [{ number := 1, title := ("a !").toList, questionId := ("a").toList }] ∧
    specQuestionId (("a !").toList) = ("a_").toList ∧
    (("a").toList : List Char) ≠ ("a_").toList := by
  refine ⟨by decide, by decide, by decide⟩



/-! ## Milestone prerequisites (apps/quests/models.py)

`MilestoneProgress.can_be_started` filters the enrollment's progress rows
down to those whose template is a prerequisite of this milestone's
template, and blocks only when one of those rows has a status other than
`completed`. -/

/-- A `MilestoneProgress` row (fields `can_be_started` reads). -/
structure MilestoneProgressRow where
  enrollmentId : Nat
  templateId : Nat
  status : String
  deriving DecidableEq, Repr

/-- `MilestoneProgress.can_be_started` for a milestone of enrollment
`enrollmentId` whose template has prerequisites `prerequisiteTemplates`,
over the table `rows` of all `MilestoneProgress` rows. -/
def canBeStarted (enrollmentId : Nat) (prerequisiteTemplates : List Nat)
    (rows : List MilestoneProgressRow) : Bool :=
  if prerequisiteTemplates = [] then true
  else
    let prerequisiteProgress := rows.filter fun r =>
      decide (r.enrollmentId = enrollmentId ∧ r.templateId ∈ prerequisiteTemplates)
    (prerequisiteProgress.filter fun r => decide (¬ r.status = "completed")).isEmpty

/-- C10: `can_be_started` returns `True` exactly when no progress row of
the same enrollment exists for a prerequisite template with a status other
than `completed`; in particular (second conjunct) a prerequisite for which
no progress row exists at all does not block, so a milestone can be
startable although its prerequisite was never started. -/
theorem can_be_started_iff (enrollmentId : Nat) (prerequisiteTemplates : List Nat)
    (rows : List MilestoneProgressRow) :
    (canBeStarted enrollmentId prerequisiteTemplates rows = true ↔
      ¬ ∃ r ∈ rows, r.enrollmentId = enrollmentId ∧
        r.templateId ∈ prerequisiteTemplates ∧ r.status ≠ "completed") ∧
    canBeStarted 1 [42] [] = true := by
  constructor
  · by_cases hp : prerequisiteTemplates = []
    · subst hp
      simp [canBeStarted]
    · rw [canBeStarted, if_neg hp]
      simp only [List.isEmpty_iff, List.filter_filter, List.filter_eq_nil_iff,
        Bool.and_eq_true, decide_eq_true_eq, ne_eq]
      push_neg
      constructor
      · intro h r hr h1 h2
        have hh := h r hr
        tauto
      · intro h r hr
        have hh := h r hr
        tauto
  · decide

/-! ## Course session progress (apps/responses/models.py,
apps/courses/models.py)

`CourseSession.update_progress` recomputes the completion percentage from
the `complete` responses and, when it reaches 100 on an active session,
marks the session completed and runs `_update_user_course_progress`:
get-or-create the user's `UserCourseProgress` for the course as
`complete`, then for every child course get-or-create its progress row as
`open`, upgrading only `locked` rows.  `UserCourseProgress` is unique per
(user, course); we model the one user's rows keyed by course id. -/

/-- The `CourseSession` fields `update_progress` touches. -/
structure CourseSessionState where
  status : String
  completedAtTime : Option Int
  completionPercentage : ℚ
  totalQuestions : Nat
  answeredQuestions : Nat
  deriving DecidableEq, Repr

/-- A `UserCourseProgress` row of the session's user. -/
structure UserCourseProgressRow where
  courseId : String
  status : String
  completedAtTime : Option Int
  deriving DecidableEq, Repr

/-- The database state `update_progress` reads and writes: the session,
its course, the statuses of the session's `QuestionResponse` rows, the
user's `UserCourseProgress` rows and the course's children. -/
structure ProgressWorld where
  session : CourseSessionState
  courseId : String
  responseStatuses : List String
  progress : List UserCourseProgressRow
  childCourseIds : List String
  deriving DecidableEq, Repr

/-- `UserCourseProgress.objects.get(user=..., course=cid)` (first match;
the unique-together constraint makes it the only one). -/
def lookupProgress (cid : String) : List UserCourseProgressRow →
    Option UserCourseProgressRow
  | [] => none
  | r :: rest => if r.courseId = cid then some r else lookupProgress cid rest

/-- Update the first row of course `cid` with `f` (a row `.save()` after
mutating its fields). -/
def setProgressFirst (cid : String) (f : UserCourseProgressRow → UserCourseProgressRow) :
    List UserCourseProgressRow → List UserCourseProgressRow
  | [] => []
  | r :: rest =>
    if r.courseId = cid then f r :: rest else r :: setProgressFirst cid f rest

/-- `get_or_create(user, course, defaults={'status': 'complete',
'completed_at': now})` followed by the upgrade of a non-complete row. -/
def completeCourseProgress (now : Int) (cid : String)
    (rows : List UserCourseProgressRow) : List UserCourseProgressRow :=
  match lookupProgress cid rows with
  | none => rows ++ [{ courseId := cid, status := "complete", completedAtTime := some now }]
  | some r =>
    if r.status ≠ "complete" then
      setProgressFirst cid
        (fun r0 => { r0 with status := "complete", completedAtTime := some now }) rows
    else rows

/-- `get_or_create(user, child_course, defaults={'status': 'open'})`
followed by the locked→open upgrade. -/
def openChildProgress (cid : String)
    (rows : List UserCourseProgressRow) : List UserCourseProgressRow :=
  match lookupProgress cid rows with
  | none => rows ++ [{ courseId := cid, status := "open", completedAtTime := none }]
  | some r =>
    if r.status = "locked" then
      setProgressFirst cid (fun r0 => { r0 with status := "open" }) rows
    else rows

/-- `CourseSession._update_user_course_progress`: complete the course's
row, then loop over the children. -/
def updateUserCourseProgress (now : Int) (w : ProgressWorld) :
    List UserCourseProgressRow :=
  w.childCourseIds.foldl (fun rows cid => openChildProgress cid rows)
    (completeCourseProgress now w.courseId w.progress)

/-- `self.responses.filter(status='complete').count()`. -/
def countComplete (statuses : List String) : Nat :=
  (statuses.filter fun s => decide (s = "complete")).length

/-- `CourseSession.update_progress` (the completion percentage is modelled
with exact rationals; the claim's hypothesis `completed = total` makes the
Python float value exactly 100.0 as well). -/
def updateProgress (now : Int) (w : ProgressWorld) : ProgressWorld :=
  let completedResponses := countComplete w.responseStatuses
  let s1 : CourseSessionState :=
    if w.session.totalQuestions = 0 then
      { w.session with completionPercentage := 0 }
    else
      { w.session with
        completionPercentage :=
          ((completedResponses : ℚ) / (w.session.totalQuestions : ℚ)) * 100,
        answeredQuestions := completedResponses }
  if 100 ≤ s1.completionPercentage ∧ s1.status = "active" then
    { w with
      session := { s1 with status := "completed", completedAtTime := some now },
      progress := updateUserCourseProgress now w }
  else
    { w with session := s1 }

lemma lookupProgress_append_single (cid : String) (rows : List UserCourseProgressRow)
    (r : UserCourseProgressRow) :
    lookupProgress cid (rows ++ [r]) =
      match lookupProgress cid rows with
      | some x => some x
      | none => if r.courseId = cid then some r else none := by
  induction rows with
  | nil => simp [lookupProgress]
  | cons x rest ih =>
    by_cases hx : x.courseId = cid
    · simp [lookupProgress, hx]
    · simp [lookupProgress, hx, ih]

lemma lookupProgress_setFirst_self (cid : String)
    (f : UserCourseProgressRow → UserCourseProgressRow)
    (hf : ∀ r, (f r).courseId = r.courseId)
    (rows : List UserCourseProgressRow) (r : UserCourseProgressRow)
    (h : lookupProgress cid rows = some r) :
    lookupProgress cid (setProgressFirst cid f rows) = some (f r) := by
  induction rows with
  | nil => simp [lookupProgress] at h
  | cons x rest ih =>
    by_cases hx : x.courseId = cid
    · rw [lookupProgress, if_pos hx] at h
      have hxr : x = r := by injection h
      subst hxr
      rw [setProgressFirst, if_pos hx, lookupProgress, if_pos ((hf x).trans hx)]
    · rw [lookupProgress, if_neg hx] at h
      rw [setProgressFirst, if_neg hx, lookupProgress, if_neg hx]
      exact ih h

lemma lookupProgress_setFirst_ne (cid c : String)
    (f : UserCourseProgressRow → UserCourseProgressRow)
    (hf : ∀ r, (f r).courseId = r.courseId)
    (rows : List UserCourseProgressRow) (hne : c ≠ cid) :
    lookupProgress c (setProgressFirst cid f rows) = lookupProgress c rows := by
  induction rows with
  | nil => rfl
  | cons x rest ih =>
    by_cases hx : x.courseId = cid
    · have hfc : (f x).courseId = x.courseId := hf x
      by_cases hc : x.courseId = c
      · exact absurd (hc.symm.trans hx) hne
      · have hfcne : ¬ (f x).courseId = c := fun hcon => hc (hfc.symm.trans hcon)
        rw [setProgressFirst, if_pos hx, lookupProgress, if_neg hfcne,
          lookupProgress, if_neg hc]
    · rw [setProgressFirst, if_neg hx, lookupProgress, lookupProgress]
      by_cases hc : x.courseId = c
      · rw [if_pos hc, if_pos hc]
      · rw [if_neg hc, if_neg hc]
        exact ih

/-- The row of course `cid` after `openChildProgress cid`, as a function of
the row before. -/
def openedRow (cid : String) (o : Option UserCourseProgressRow) :
    UserCourseProgressRow :=
  match o with
  | none => { courseId := cid, status := "open", completedAtTime := none }
  | some r => if r.status = "locked" then { r with status := "open" } else r

lemma lookupProgress_openChild_self (cid : String)
    (rows : List UserCourseProgressRow) :
    lookupProgress cid (openChildProgress cid rows) =
      some (openedRow cid (lookupProgress cid rows)) := by
  rcases h : lookupProgress cid rows with _ | r
  · rw [openChildProgress]
    simp only [h]
    rw [lookupProgress_append_single, h]
    simp [openedRow]
  · rw [openChildProgress]
    simp only [h]
    by_cases hl : r.status = "locked"
    · rw [if_pos hl]
      rw [lookupProgress_setFirst_self cid
        (fun r0 => { r0 with status := "open" }) (fun r0 => rfl) rows r h]
      simp [openedRow, hl]
    · rw [if_neg hl, h]
      simp [openedRow, hl]

lemma lookupProgress_openChild_ne (cid c : String)
    (rows : List UserCourseProgressRow) (hne : c ≠ cid) :
    lookupProgress c (openChildProgress cid rows) = lookupProgress c rows := by
  rcases h : lookupProgress cid rows with _ | r
  · rw [openChildProgress]
    simp only [h]
    rw [lookupProgress_append_single]
    rcases hc : lookupProgress c rows with _ | x
    · simp [Ne.symm hne]
    · simp
  · rw [openChildProgress]
    simp only [h]
    by_cases hl : r.status = "locked"
    · rw [if_pos hl]
      exact lookupProgress_setFirst_ne cid c
        (fun r0 => { r0 with status := "open" }) (fun r0 => rfl) rows hne
    · rw [if_neg hl]

lemma lookupProgress_completeCourse_status (now : Int) (cid : String)
    (rows : List UserCourseProgressRow) :
    (lookupProgress cid (completeCourseProgress now cid rows)).map (·.status) =
      some "complete" := by
  rcases h : lookupProgress cid rows with _ | r
  · rw [completeCourseProgress]
    simp only [h]
    rw [lookupProgress_append_single, h]
    simp
  · rw [completeCourseProgress]
    simp only [h]
    by_cases hc : r.status = "complete"
    · rw [if_neg (by simpa using hc), h]
      simp [hc]
    · rw [if_pos hc]
      rw [lookupProgress_setFirst_self cid
        (fun r0 => { r0 with status := "complete", completedAtTime := some now })
        (fun r0 => rfl) rows r h]
      simp

lemma lookupProgress_completeCourse_ne (now : Int) (cid c : String)
    (rows : List UserCourseProgressRow) (hne : c ≠ cid) :
    lookupProgress c (completeCourseProgress now cid rows) =
      lookupProgress c rows := by
  rcases h : lookupProgress cid rows with _ | r
  · rw [completeCourseProgress]
    simp only [h]
    rw [lookupProgress_append_single]
    rcases hc : lookupProgress c rows with _ | x
    · simp [Ne.symm hne]
    · simp
  · rw [completeCourseProgress]
    simp only [h]
    by_cases hc : r.status = "complete"
    · simp [hc]
    · rw [if_pos hc]
      exact lookupProgress_setFirst_ne cid c
        (fun r0 => { r0 with status := "complete", completedAtTime := some now })
        (fun r0 => rfl) rows hne

lemma foldl_openChild_notmem (children : List String)
    (rows : List UserCourseProgressRow) (c : String) (hc : c ∉ children) :
    lookupProgress c (children.foldl (fun rs cid => openChildProgress cid rs) rows) =
      lookupProgress c rows := by
  induction children generalizing rows with
  | nil => rfl
  | cons x xs ih =>
    rw [List.foldl_cons]
    have hcx : c ≠ x := fun h => hc (h ▸ List.mem_cons_self x xs)
    have hcxs : c ∉ xs := fun h => hc (List.mem_cons_of_mem x h)
    rw [ih _ hcxs, lookupProgress_openChild_ne x c rows hcx]

lemma foldl_openChild_mem (children : List String) :
    ∀ (rows : List UserCourseProgressRow) (c : String),
      children.Nodup → c ∈ children →
      lookupProgress c (children.foldl (fun rs cid => openChildProgress cid rs) rows) =
        some (openedRow c (lookupProgress c rows)) := by
  induction children with
  | nil =>
    intro rows c _ hc
    simp at hc
  | cons x xs ih =>
    intro rows c hnd hc
    rw [List.nodup_cons] at hnd
    rw [List.foldl_cons]
    rcases List.mem_cons.mp hc with he | he
    · subst he
      rw [foldl_openChild_notmem xs _ c hnd.1, lookupProgress_openChild_self]
    · have hcx : c ≠ x := fun h => hnd.1 (h ▸ he)
      rw [ih _ c hnd.2 he, lookupProgress_openChild_ne x c rows hcx]

/-- C4: when `update_progress` runs on an `active` session with
`total_questions > 0` and as many `complete` responses as questions, the
session becomes `completed` with `completed_at` set, the user's
`UserCourseProgress` row for the course ends up with status `complete`
(created or upgraded), a child course with no progress row gets one with
status `open`, a child row with status `locked` becomes `open`, and a
child row with any other status (in particular `open` or `complete`) is
left unchanged. -/
theorem update_progress_completes_and_unlocks
    (now : Int) (w : ProgressWorld)
    (hactive : w.session.status = "active")
    (htotal : 0 < w.session.totalQuestions)
    (hcount : countComplete w.responseStatuses = w.session.totalQuestions)
    (hnd : w.childCourseIds.Nodup)
    (hnc : w.courseId ∉ w.childCourseIds) :
    (updateProgress now w).session.status = "completed" ∧
    (updateProgress now w).session.completedAtTime = some now ∧
    (lookupProgress w.courseId (updateProgress now w).progress).map (·.status) =
      some "complete" ∧
    (∀ c ∈ w.childCourseIds, lookupProgress c w.progress = none →
      (lookupProgress c (updateProgress now w).progress).map (·.status) =
        some "open") ∧
    (∀ c ∈ w.childCourseIds, ∀ r, lookupProgress c w.progress = some r →
      r.status = "locked" →
      (lookupProgress c (updateProgress now w).progress).map (·.status) =
        some "open") ∧
    (∀ c ∈ w.childCourseIds, ∀ r, lookupProgress c w.progress = some r →
      r.status ≠ "locked" →
      lookupProgress c (updateProgress now w).progress = some r) := by
  have htne : (w.session.totalQuestions : ℚ) ≠ 0 := by
    exact_mod_cast Nat.pos_iff_ne_zero.mp htotal
  have hpct :
      ((countComplete w.responseStatuses : ℚ) / (w.session.totalQuestions : ℚ)) * 100
        = 100 := by
    rw [hcount]
    field_simp
  have hcond : updateProgress now w =
      { w with
        session :=
          { w.session with
            completionPercentage := 100,
            answeredQuestions := countComplete w.responseStatuses,
            status := "completed", completedAtTime := some now },
        progress := updateUserCourseProgress now w } := by
    rw [updateProgress]
    simp only [Nat.pos_iff_ne_zero.mp htotal, if_false, hpct, hactive]
    rw [if_pos ⟨le_refl 100, trivial⟩]
  rw [hcond]
  refine ⟨rfl, rfl, ?_, ?_, ?_, ?_⟩
  · show (lookupProgress w.courseId (updateUserCourseProgress now w)).map (·.status) =
      some "complete"
    rw [updateUserCourseProgress, foldl_openChild_notmem _ _ _ hnc]
    exact lookupProgress_completeCourse_status now w.courseId w.progress
  · intro c hc hnone
    show (lookupProgress c (updateUserCourseProgress now w)).map (·.status) =
      some "open"
    have hcne : c ≠ w.courseId := fun h => hnc (h ▸ hc)
    rw [updateUserCourseProgress, foldl_openChild_mem _ _ _ hnd hc,
      lookupProgress_completeCourse_ne now w.courseId c w.progress hcne, hnone]
    rfl
  · intro c hc r hr hl
    show (lookupProgress c (updateUserCourseProgress now w)).map (·.status) =
      some "open"
    have hcne : c ≠ w.courseId := fun h => hnc (h ▸ hc)
    rw [updateUserCourseProgress, foldl_openChild_mem _ _ _ hnd hc,
      lookupProgress_completeCourse_ne now w.courseId c w.progress hcne, hr]
    simp [openedRow, hl]
  · intro c hc r hr hl
    show lookupProgress c (updateUserCourseProgress now w) = some r
    have hcne : c ≠ w.courseId := fun h => hnc (h ▸ hc)
    rw [updateUserCourseProgress, foldl_openChild_mem _ _ _ hnd hc,
      lookupProgress_completeCourse_ne now w.courseId c w.progress hcne, hr]
    simp [openedRow, hl]

/-- Witness for C4: an active one-question session whose single response is
complete; the course has two children, one locked (upgraded to open), one
absent (created open), and an already-open third child is untouched. -/
theorem update_progress_completes_and_unlocks_witness :
    ((updateProgress 7
      { session := { status := "active", completedAtTime := none,
                     completionPercentage := 0, totalQuestions := 1,
                     answeredQuestions := 0 },
        courseId := "root",
        responseStatuses := ["complete"],
        progress := [{ courseId := "child1", status := "locked",
                       completedAtTime := none },
                     { courseId := "child3", status := "open",
                       completedAtTime := none }],
        childCourseIds := ["child1", "child2", "child3"] }).session.status =
      "completed") ∧
    ((updateProgress 7
      { session := { status := "active", completedAtTime := none,
                     completionPercentage := 0, totalQuestions := 1,
                     answeredQuestions := 0 },
        courseId := "root",
        responseStatuses := ["complete"],
        progress := [{ courseId := "child1", status := "locked",
                       completedAtTime := none },
                     { courseId := "child3", status := "open",
                       completedAtTime := none }],
        childCourseIds := ["child1", "child2", "child3"] }).session.completedAtTime =
      some 7) := by
  have h := update_progress_completes_and_unlocks 7
      { session := { status := "active", completedAtTime := none,
                     completionPercentage := 0, totalQuestions := 1,
                     answeredQuestions := 0 },
        courseId := "root",
        responseStatuses := ["complete"],
        progress := [{ courseId := "child1", status := "locked",
                       completedAtTime := none },
                     { courseId := "child3", status := "open",
                       completedAtTime := none }],
        childCourseIds := ["child1", "child2", "child3"] }
      (by decide) (by decide) (by decide) (by decide) (by decide)
  exact ⟨h.1, h.2.1⟩


end Life2Launch
